import Mathlib

/-
Verification development for the myAI3 conversational web assistant.
The definitions below are a shallow embedding of the repository source:
the server chat route (moderation gate, denial stream, generation
configuration), the image-generation tool, the client persistence layer
(load, save, clear chat), and the assistant-message part renderer.
-/

set_option maxHeartbeats 1000000

/-- A message part as the client and server represent it: a loosely typed
record discriminated by the string field `type`, with `text` and `state`
present only on some variants (embedded as `Option`). -/
structure MsgPart where
  type : String
  text : Option String
  state : Option String
  deriving Repr, DecidableEq

/-- A chat message: id, role string, ordered list of parts. -/
structure UIMessage where
  id : String
  role : String
  parts : List MsgPart
  deriving Repr, DecidableEq

/-- Result of the external moderation classifier `isContentFlagged`:
a flagged boolean and an optional denial message. -/
structure ModerationResult where
  flagged : Bool
  denialMessage : Option String
  deriving Repr, DecidableEq

/-- Empty string constant used where the source supplies a literal
empty-string default. -/
def emptyText : String := ""

/-- The latest user message: source filters `msg.role === 'user'` and
takes `.pop()`, the last element of the filtered array. -/
def latestUserMessage (messages : List UIMessage) : Option UIMessage :=
  (messages.filter (fun m => m.role == "user")).getLast?

/-- The text submitted to moderation: source filters parts with
`part.type === 'text'`, maps `'text' in part ? part.text : ''`, and joins
with the empty separator. -/
def latestUserText (m : UIMessage) : String :=
  String.join
    (((m.parts.filter (fun p => p.type == "text")).map
      (fun p => p.text.getD emptyText)))

/-- Wire events of the UI-message stream emitted to the client. -/
inductive StreamEvent where
  | start : StreamEvent
  | textStart : String → StreamEvent
  | textDelta : String → String → StreamEvent
  | textEnd : String → StreamEvent
  | reasoningStart : String → StreamEvent
  | reasoningDelta : String → String → StreamEvent
  | reasoningEnd : String → StreamEvent
  | toolInputAvailable : String → String → String → StreamEvent
  | toolOutputAvailable : String → String → StreamEvent
  | finish : StreamEvent
  deriving Repr, DecidableEq

/-- The fixed fallback denial string from the route source. -/
def moderationFallbackMessage : String :=
  "Your message violates our guidelines. I can\x27t answer that."

/-- The fixed id used for the denial text part in the route source. -/
def moderationDenialTextId : String := "moderation-denial-text"

/-- The delta text written on denial: source evaluates
`moderationResult.denialMessage || fallback`, where JavaScript `||`
treats both an absent and an empty-string message as falsy. -/
def denialText (mr : ModerationResult) : String :=
  match mr.denialMessage with
  | some s => if s == emptyText then moderationFallbackMessage else s
  | none => moderationFallbackMessage

/-- The exact event sequence the route writer emits on a flagged turn. -/
def denialStream (mr : ModerationResult) : List StreamEvent :=
  [ StreamEvent.start,
    StreamEvent.textStart moderationDenialTextId,
    StreamEvent.textDelta moderationDenialTextId (denialText mr),
    StreamEvent.textEnd moderationDenialTextId,
    StreamEvent.finish ]

/-- Configuration of the `streamText` generation call in the route. -/
structure GenerationConfig where
  tools : List String
  stopAtStepCount : Nat
  parallelToolCalls : Bool
  sendReasoning : Bool
  deriving Repr, DecidableEq

/-- The concrete configuration the route passes to `streamText` and
`toUIMessageStreamResponse`: the two registered tools, the
`stopWhen: stepCountIs(10)` budget, `parallelToolCalls: false`, and
`sendReasoning: true`. -/
def chatGenerationConfig : GenerationConfig :=
  { tools := [ "webSearch", "vectorDatabaseSearch" ],
    stopAtStepCount := 10,
    parallelToolCalls := false,
    sendReasoning := true }

/-- The two possible responses of the chat route: a synthesized denial
stream, or a model-generation turn with the given configuration. -/
inductive PostResponse where
  | denial : List StreamEvent → PostResponse
  | generation : GenerationConfig → PostResponse
  deriving Repr, DecidableEq

/-- The chat route `POST` handler. The classifier is passed as a
function argument (it is an external collaborator); the second component
of the result records, in call order, every input the classifier was
invoked on. Mirrors the source: take the latest user message, join its
text parts, and when that text is truthy (non-empty) classify it; on
`flagged` return the denial stream, otherwise fall through to the
generation call. -/
def POST (classify : String → ModerationResult) (messages : List UIMessage) :
    PostResponse × List String :=
  match latestUserMessage messages with
  | some latestMsg =>
      let textParts := latestUserText latestMsg
      if textParts == emptyText then
        (PostResponse.generation chatGenerationConfig, [])
      else
        let moderationResult := classify textParts
        if moderationResult.flagged then
          (PostResponse.denial (denialStream moderationResult), [ textParts ])
        else
          (PostResponse.generation chatGenerationConfig, [ textParts ])
  | none => (PostResponse.generation chatGenerationConfig, [])

/-- A materialized part on the receiver side: its kind, the stream id it
was accumulated under, and its accumulated content. -/
structure MatPart where
  kind : String
  id : String
  content : String
  deriving Repr, DecidableEq

/-- Modelled from the spec: receiver-side application of one stream event
(section 4.2); the client materializer itself lives in the external
streaming library, not under the repository source. `start` initializes
an empty part list; a `<kind>-start` appends an empty part under its id;
deltas are keyed by id and concatenated in arrival order; tool input and
output events append parts; `end` and `finish` close scopes without
structural change. -/
def applyEvent (parts : List MatPart) (e : StreamEvent) : List MatPart :=
  match e with
  | StreamEvent.start => []
  | StreamEvent.textStart i =>
      parts ++ [ { kind := "text", id := i, content := emptyText } ]
  | StreamEvent.textDelta i d =>
      parts.map (fun p =>
        if p.kind == "text" && p.id == i then
          { kind := p.kind, id := p.id, content := p.content ++ d }
        else p)
  | StreamEvent.textEnd _ => parts
  | StreamEvent.reasoningStart i =>
      parts ++ [ { kind := "reasoning", id := i, content := emptyText } ]
  | StreamEvent.reasoningDelta i d =>
      parts.map (fun p =>
        if p.kind == "reasoning" && p.id == i then
          { kind := p.kind, id := p.id, content := p.content ++ d }
        else p)
  | StreamEvent.reasoningEnd _ => parts
  | StreamEvent.toolInputAvailable callId toolName args =>
      parts ++ [ { kind := "tool-call", id := callId,
                   content := toolName ++ args } ]
  | StreamEvent.toolOutputAvailable callId output =>
      parts ++ [ { kind := "tool-result", id := callId, content := output } ]
  | StreamEvent.finish => parts

/-- Modelled from the spec: materialization of a whole event stream into
the parts of the assistant message (section 4.2), a fold of
`applyEvent` over the events in arrival order. -/
def materialize (events : List StreamEvent) : List MatPart :=
  events.foldl applyEvent []

/-- One element of the `data` array of the OpenAI images response; the
`url` field may be absent. -/
structure ImageDatum where
  url : Option String
  deriving Repr, DecidableEq

/-- The OpenAI images response as the tool reads it: a `data` array. -/
structure ImagesGenerateResponse where
  data : List ImageDatum
  deriving Repr, DecidableEq

/-- Output of the image tool `execute`: either the structured success
value `\x7b imageUrl, promptUsed \x7d` or the structured error value
`\x7b error \x7d`. -/
inductive ImageToolOutput where
  | image : Option String → String → ImageToolOutput
  | failure : String → ImageToolOutput
  deriving Repr, DecidableEq

/-- The fixed human-readable error message of the image tool. -/
def imageFailureMessage : String :=
  "Failed to generate image. Please try again."

/-- The image tool `execute` body. The external
`openai.images.generate` call is a function argument whose `Except`
error case stands for a thrown/rejected call. Mirrors the source try
block: on success read `response.data[0].url` (an out-of-bounds index
makes that access throw, landing in the same catch), and in the catch
return the structured error value with the fixed message. -/
def generateImageExecute
    (imagesGenerate : String → Except String ImagesGenerateResponse)
    (prompt : String) : ImageToolOutput :=
  match imagesGenerate prompt with
  | Except.error _ => ImageToolOutput.failure imageFailureMessage
  | Except.ok response =>
      match response.data.head? with
      | none => ImageToolOutput.failure imageFailureMessage
      | some d => ImageToolOutput.image d.url prompt

/-- One round trip of the generation loop as scripted for the budget
property: the model either finishes with text or requests another tool
call. -/
inductive StepOutcome where
  | done : String → StepOutcome
  | toolCall : String → String → StepOutcome
  deriving Repr, DecidableEq

/-- Modelled from the spec: the model-generation/tool-call loop with the
`stopWhen = stepCountIs(budget)` policy (sections 4.3 and 4.4); the loop
itself lives in the external streaming library — only the budget value
comes from the route configuration. The fuel argument is the remaining
budget; exhausting it ends the turn with the steps produced so far. -/
def runTurnAux : Nat → (Nat → StepOutcome) → Nat → List StepOutcome
  | 0, _, _ => []
  | fuel + 1, script, n =>
      match script n with
      | StepOutcome.done t => [ StepOutcome.done t ]
      | StepOutcome.toolCall name args =>
          StepOutcome.toolCall name args :: runTurnAux fuel script (n + 1)

/-- Modelled from the spec: a whole generation turn under a step budget,
starting at step index zero. -/
def runTurn (budget : Nat) (script : Nat → StepOutcome) : List StepOutcome :=
  runTurnAux budget script 0

/-- The duration map, keyed by `messageId-partIndex` strings. -/
abbrev Durations := List (String × Nat)

/-- The stored blob under the fixed storage key, as the load path
distinguishes it: no stored value, a value `JSON.parse` rejects (the
catch branch), or a parsed object whose `messages` and `durations`
fields may each be missing. The storage medium and JSON round trip are
external collaborators (spec section 1 treats local storage as an opaque
key-value store). -/
inductive StoredBlob where
  | absent : StoredBlob
  | unparseable : StoredBlob
  | parsed : Option (List UIMessage) → Option Durations → StoredBlob
  deriving Repr, DecidableEq

/-- The client `loadMessagesFromStorage`: absent and unparseable blobs
degrade to the empty pair; a parsed blob takes
`parsed.messages || []` and `parsed.durations || \x7b\x7d`. -/
def loadMessagesFromStorage : StoredBlob → List UIMessage × Durations
  | StoredBlob.absent => ([], [])
  | StoredBlob.unparseable => ([], [])
  | StoredBlob.parsed ms ds => (ms.getD [], ds.getD [])

/-- The client `saveMessagesToStorage`: serializes
`\x7b messages, durations \x7d` under the fixed key, so both fields are
present in the stored blob. -/
def saveMessagesToStorage (messages : List UIMessage) (durations : Durations) :
    StoredBlob :=
  StoredBlob.parsed (some messages) (some durations)

/-- The welcome message `clearChat` re-adds: a fresh assistant message
with a single text part holding the configured welcome text (the id is
built from the current time, passed in here). -/
def welcomeMessage (welcomeText welcomeId : String) : UIMessage :=
  { id := welcomeId, role := "assistant",
    parts := [ { type := "text", text := some welcomeText, state := none } ] }

/-- The storage writes `clearChat` performs, in order, no matter what the
store held before: first the synchronous save of the empty snapshot,
then — from the 100 ms timeout callback — the save of the re-added
welcome message with empty durations. -/
def clearChatWrites (welcomeText welcomeId : String) (_prior : StoredBlob) :
    List StoredBlob :=
  [ saveMessagesToStorage [] [],
    saveMessagesToStorage [ welcomeMessage welcomeText welcomeId ] [] ]

/-- The stored blob after `clearChat` has run to completion (timeout
callback included): the last of its writes. -/
def storageAfterClearChat (welcomeText welcomeId : String)
    (prior : StoredBlob) : StoredBlob :=
  (clearChatWrites welcomeText welcomeId prior).getLastD prior

/-- What the assistant-message renderer does with one part. -/
inductive RenderedPart where
  | textBlock : String → RenderedPart
  | reasoningBlock : RenderedPart
  | toolResult : RenderedPart
  | toolCall : RenderedPart
  | skipped : RenderedPart
  deriving Repr, DecidableEq

/-- Head string of tool part types in the renderer dispatch. -/
def toolTypeHead : String := "tool-"

/-- Boolean prefix test on strings, mirroring `String.startsWith` in the
renderer dispatch; stated over the underlying character lists so that
concrete instances evaluate by computation. -/
def strStartsWith (s pre : String) : Bool :=
  pre.data.isPrefixOf s.data

/-- The part dispatch of `AssistantMessage`: `text` renders the text
block, `reasoning` the reasoning block; a part whose type starts with
`tool-` or equals `dynamic-tool` renders as a tool result exactly when
`state === "output-available"` is present (the source guards with
`'state' in part`), and otherwise as a tool call; anything else renders
nothing. -/
def renderAssistantPart (p : MsgPart) : RenderedPart :=
  if p.type == "text" then RenderedPart.textBlock (p.text.getD emptyText)
  else if p.type == "reasoning" then RenderedPart.reasoningBlock
  else if strStartsWith p.type toolTypeHead || p.type == "dynamic-tool" then
    match p.state with
    | some s =>
        if s == "output-available" then RenderedPart.toolResult
        else RenderedPart.toolCall
    | none => RenderedPart.toolCall
  else RenderedPart.skipped

/-- A classifier that never flags, used as a concrete instance. -/
def neverFlag : String → ModerationResult :=
  fun _ => { flagged := false, denialMessage := none }

/-- A classifier that always flags with a non-empty denial message. -/
def flagWithMessage : String → ModerationResult :=
  fun _ => { flagged := true, denialMessage := some "Denied." }

/-- A classifier that always flags and returns a present but empty
denial message. -/
def flagWithEmptyMessage : String → ModerationResult :=
  fun _ => { flagged := true, denialMessage := some emptyText }

/-- Sample tool name for scripted steps. -/
def sampleToolName : String := "webSearch"

/-- Sample tool arguments for scripted steps. -/
def sampleToolArgs : String := "query"

/-- A scripted model that requests another tool call on every step. -/
def alwaysToolScript : Nat → StepOutcome :=
  fun _ => StepOutcome.toolCall sampleToolName sampleToolArgs

/-- A concrete user message with one text part. -/
def sampleUserMessage : UIMessage :=
  { id := "m1", role := "user",
    parts := [ { type := "text", text := some "bad request", state := none } ] }

/-- A concrete user message with no parts at all. -/
def emptyPartsUserMessage : UIMessage :=
  { id := "m2", role := "user", parts := [] }

/-- The moderation input produced by `sampleUserMessage`. -/
def sampleModerationInput : String := "bad request"

/-- Sample error text for a rejected images call. -/
def sampleErrorText : String := "network failure"

/-- Sample prompt for the image tool. -/
def samplePrompt : String := "a sunset over the sea"

/-- An images call that always throws. -/
def errorImagesGenerate : String → Except String ImagesGenerateResponse :=
  fun _ => Except.error sampleErrorText

/-- Sample welcome text for the clear-chat theorems. -/
def sampleWelcomeText : String := "Welcome to the chat!"

/-- Sample welcome-message id for the clear-chat theorems. -/
def sampleWelcomeId : String := "welcome-1"

/-- A concrete tool part in the output-available state. -/
def sampleToolResultPart : MsgPart :=
  { type := "tool-webSearch", text := none, state := some "output-available" }

/-- Helper: the route only ever passes `chatGenerationConfig` to the
generation call. -/
theorem postGenConfig (classify : String → ModerationResult)
    (messages : List UIMessage) (cfg : GenerationConfig)
    (h : (POST classify messages).1 = PostResponse.generation cfg) :
    cfg = chatGenerationConfig := by
  unfold POST at h
  rcases hm : latestUserMessage messages with _ | m
  · rw [hm] at h
    exact (PostResponse.generation.inj h).symm
  · rw [hm] at h
    dsimp only at h
    split at h
    · exact (PostResponse.generation.inj h).symm
    · split at h
      · simp at h
      · exact (PostResponse.generation.inj h).symm

/-- C2: when the request has no user message, or the text parts of the
latest user message concatenate to the empty string, the classifier is
invoked on nothing (the call trace is empty) and the route proceeds
directly to the generation call. -/
theorem emptyInputSkipsModeration (classify : String → ModerationResult)
    (messages : List UIMessage)
    (h : latestUserMessage messages = none
       ∨ ∃ m, latestUserMessage messages = some m
           ∧ latestUserText m = emptyText) :
    POST classify messages
      = (PostResponse.generation chatGenerationConfig, []) := by
  unfold POST
  rcases h with h | ⟨m, hm, ht⟩
  · rw [h]
  · rw [hm]
    dsimp only
    rw [if_pos]
    exact beq_iff_eq.mpr ht

/-- Witness for C2 at a user message with no parts, against a classifier
that would flag anything it saw. -/
theorem emptyInputSkipsModeration_witness :
    POST flagWithMessage [ emptyPartsUserMessage ]
      = (PostResponse.generation chatGenerationConfig, []) :=
  emptyInputSkipsModeration flagWithMessage [ emptyPartsUserMessage ]
    (Or.inr ⟨emptyPartsUserMessage, by decide, rfl⟩)

/-- C3: every input the classifier is invoked on is exactly
`latestUserText` of the most recent user-role message — the in-order
concatenation of its text-typed parts, drawing on no earlier message. -/
theorem moderationInputIsLatestUserText (classify : String → ModerationResult)
    (messages : List UIMessage) (t : String)
    (h : t ∈ (POST classify messages).2) :
    ∃ m, latestUserMessage messages = some m ∧ t = latestUserText m := by
  unfold POST at h
  rcases hm : latestUserMessage messages with _ | m
  · rw [hm] at h
    simp at h
  · rw [hm] at h
    dsimp only at h
    refine ⟨m, rfl, ?_⟩
    split at h
    · simp at h
    · split at h
      · simpa using h
      · simpa using h

/-- Witness for C3 at a concrete one-message request. -/
theorem moderationInputIsLatestUserText_witness :
    ∃ m, latestUserMessage [ sampleUserMessage ] = some m
      ∧ sampleModerationInput = latestUserText m :=
  moderationInputIsLatestUserText flagWithMessage [ sampleUserMessage ]
    sampleModerationInput (by decide)

/-- C7: saving a snapshot and reloading it with no intervening mutation
returns the identical pair of messages and durations. -/
theorem snapshotRoundTrip (messages : List UIMessage) (durations : Durations) :
    loadMessagesFromStorage (saveMessagesToStorage messages durations)
      = (messages, durations) := rfl

/-- C8: an absent or unparseable blob, and a parsed blob missing either
field, all load to a well-formed pair with empty defaults; the load path
is total and never propagates a failure. -/
theorem loadDegradesToEmpty :
    loadMessagesFromStorage StoredBlob.absent = ([], [])
    ∧ loadMessagesFromStorage StoredBlob.unparseable = ([], [])
    ∧ (∀ ds, loadMessagesFromStorage (StoredBlob.parsed none ds)
        = ([], ds.getD []))
    ∧ (∀ ms, loadMessagesFromStorage (StoredBlob.parsed ms none)
        = (ms.getD [], []))
    ∧ (∀ ms ds, loadMessagesFromStorage (StoredBlob.parsed (some ms) (some ds))
        = (ms, ds)) :=
  ⟨rfl, rfl, fun _ => rfl, fun _ => rfl, fun _ _ => rfl⟩

/-- C6 counterexample: after `clearChat` completes, the persisted
snapshot is not the empty pair — the deferred callback has re-added the
welcome message. -/
theorem clearChatLeavesWelcome_cex :
    loadMessagesFromStorage
        (storageAfterClearChat sampleWelcomeText sampleWelcomeId
          StoredBlob.absent)
      ≠ (([] : List UIMessage), ([] : Durations)) := by decide

/-- C6 (amended): `clearChat` first persists the fully empty snapshot,
and after its deferred callback the snapshot holds empty durations and
exactly one fresh assistant welcome message with a single text part —
independently of whatever the store held before. -/
theorem clearChatResetsToWelcome (welcomeText welcomeId : String)
    (prior : StoredBlob) :
    loadMessagesFromStorage
        ((clearChatWrites welcomeText welcomeId prior).headD prior) = ([], [])
    ∧ loadMessagesFromStorage
        (storageAfterClearChat welcomeText welcomeId prior)
        = ([ welcomeMessage welcomeText welcomeId ], [])
    ∧ (welcomeMessage welcomeText welcomeId).role = "assistant"
    ∧ (welcomeMessage welcomeText welcomeId).parts
        = [ { type := "text", text := some welcomeText, state := none } ] :=
  ⟨rfl, rfl, rfl, rfl⟩

/-- Helper: the budgeted loop never performs more round trips than its
remaining fuel. -/
theorem runTurnAux_length_le (fuel : Nat) (script : Nat → StepOutcome) :
    ∀ n, (runTurnAux fuel script n).length ≤ fuel := by
  induction fuel with
  | zero =>
      intro n
      simp [runTurnAux]
  | succ k ih =>
      intro n
      unfold runTurnAux
      cases script n with
      | done t => simp
      | toolCall name args =>
          simpa using Nat.succ_le_succ (ih (n + 1))

/-- C4: every generation turn the route starts is configured with a step
budget of ten round trips; under that budget the loop performs at most
ten model/tool round trips, and a scripted model that always requests
another tool call ends the turn with exactly the ten tool-call steps as
its output, not an error. -/
theorem stepBudgetEnforced (classify : String → ModerationResult)
    (messages : List UIMessage) (cfg : GenerationConfig)
    (h : (POST classify messages).1 = PostResponse.generation cfg) :
    cfg.stopAtStepCount = 10
    ∧ (∀ script, (runTurn cfg.stopAtStepCount script).length ≤ 10)
    ∧ runTurn cfg.stopAtStepCount alwaysToolScript
        = List.replicate 10 (StepOutcome.toolCall sampleToolName sampleToolArgs) := by
  have hc := postGenConfig classify messages cfg h
  subst hc
  refine ⟨rfl, ?_, by decide⟩
  intro script
  exact runTurnAux_length_le 10 script 0

/-- Witness for C4 on the empty request against a non-flagging
classifier. -/
theorem stepBudgetEnforced_witness :
    chatGenerationConfig.stopAtStepCount = 10
    ∧ runTurn chatGenerationConfig.stopAtStepCount alwaysToolScript
        = List.replicate 10 (StepOutcome.toolCall sampleToolName sampleToolArgs) :=
  ⟨(stepBudgetEnforced neverFlag [] chatGenerationConfig rfl).1,
   (stepBudgetEnforced neverFlag [] chatGenerationConfig rfl).2.2⟩

/-- C9: every generation turn the route starts is configured with
parallel tool calls disabled, so tool calls within one step run
one-at-a-time. -/
theorem parallelToolCallsDisabled (classify : String → ModerationResult)
    (messages : List UIMessage) (cfg : GenerationConfig)
    (h : (POST classify messages).1 = PostResponse.generation cfg) :
    cfg.parallelToolCalls = false := by
  have hc := postGenConfig classify messages cfg h
  subst hc
  rfl

/-- Witness for C9 on the empty request against a non-flagging
classifier. -/
theorem parallelToolCallsDisabled_witness :
    chatGenerationConfig.parallelToolCalls = false :=
  parallelToolCallsDisabled neverFlag [] chatGenerationConfig rfl

/-- C5: the image tool `execute` is total over every outcome of the
underlying images call — a failed call is mapped to the structured
error value carrying the fixed human-readable message, and the output is
always either that error value or the structured success value; nothing
is thrown across the protocol boundary. -/
theorem generateImageNeverThrows
    (imagesGenerate : String → Except String ImagesGenerateResponse)
    (prompt : String) :
    (∀ e, imagesGenerate prompt = Except.error e →
       generateImageExecute imagesGenerate prompt
         = ImageToolOutput.failure imageFailureMessage)
    ∧ (generateImageExecute imagesGenerate prompt
          = ImageToolOutput.failure imageFailureMessage
       ∨ ∃ u, generateImageExecute imagesGenerate prompt
           = ImageToolOutput.image u prompt) := by
  constructor
  · intro e he
    unfold generateImageExecute
    rw [he]
  · rcases hg : imagesGenerate prompt with e | r
    · exact Or.inl (by unfold generateImageExecute; simp [hg])
    · rcases hd : r.data.head? with _ | d
      · exact Or.inl (by unfold generateImageExecute; simp [hg, hd])
      · exact Or.inr ⟨d.url, by unfold generateImageExecute; simp [hg, hd]⟩

/-- Witness for C5 at a concrete prompt whose images call throws. -/
theorem generateImageNeverThrows_witness :
    generateImageExecute errorImagesGenerate samplePrompt
      = ImageToolOutput.failure imageFailureMessage :=
  (generateImageNeverThrows errorImagesGenerate samplePrompt).1
    sampleErrorText rfl

/-- C10: a part whose type starts with `tool-` or equals `dynamic-tool`
renders as a tool result exactly when its state field is present and
equals `output-available`; in every other case — `input-streaming`,
`input-available`, any other state, or no state field — it renders as a
tool call. -/
theorem toolPartDispatch (p : MsgPart)
    (h : strStartsWith p.type toolTypeHead = true ∨ p.type = "dynamic-tool") :
    (renderAssistantPart p = RenderedPart.toolResult
        ↔ p.state = some "output-available")
    ∧ (renderAssistantPart p ≠ RenderedPart.toolResult →
        renderAssistantPart p = RenderedPart.toolCall) := by
  have htext : (p.type == "text") = false := by
    rcases h with h | h
    · by_contra hb
      rw [Bool.not_eq_false, beq_iff_eq] at hb
      rw [hb] at h
      exact absurd h (by decide)
    · rw [h]
      decide
  have hreas : (p.type == "reasoning") = false := by
    rcases h with h | h
    · by_contra hb
      rw [Bool.not_eq_false, beq_iff_eq] at hb
      rw [hb] at h
      exact absurd h (by decide)
    · rw [h]
      decide
  have htool : (strStartsWith p.type toolTypeHead || p.type == "dynamic-tool")
      = true := by
    rcases h with h | h
    · simp [h]
    · simp [h]
  unfold renderAssistantPart
  rw [htext, hreas, htool]
  simp only [Bool.false_eq_true, if_false, if_true]
  cases hs : p.state with
  | none => simp
  | some s =>
      by_cases hso : s = "output-available"
      · subst hso
        simp
      · simp [hso, beq_iff_eq]

/-- Witness for C10 at a concrete webSearch tool part with state
output-available. -/
theorem toolPartDispatch_witness :
    renderAssistantPart sampleToolResultPart = RenderedPart.toolResult :=
  (toolPartDispatch sampleToolResultPart (Or.inl (by decide))).1.mpr rfl

/-- Helper: prepending the empty string is the identity. -/
theorem emptyText_append (s : String) : emptyText ++ s = s := by
  cases s
  rfl

/-- Helper: the denial stream materializes to exactly one text part
holding the denial text, keyed by the fixed denial id, with no
tool-call, tool-result or reasoning part. -/
theorem materialize_denialStream (mr : ModerationResult) :
    materialize (denialStream mr)
      = [ { kind := "text", id := moderationDenialTextId,
            content := denialText mr } ] := by
  have h : materialize (denialStream mr)
      = [ { kind := "text", id := moderationDenialTextId,
            content := emptyText ++ denialText mr } ] := rfl
  rw [h, emptyText_append]

/-- C1 counterexample: a classifier that flags and returns a present but
empty denial message. The claim says the delta carries the denial
message whenever it is present, with the fallback reserved for an absent
message; the route instead evaluates JavaScript `||`, so the emitted
delta is the fallback string, which differs from the present (empty)
denial message. -/
theorem denialDeltaOnEmptyMessage_cex :
    (flagWithEmptyMessage (latestUserText sampleUserMessage)).flagged = true
    ∧ (flagWithEmptyMessage (latestUserText sampleUserMessage)).denialMessage
        = some emptyText
    ∧ (POST flagWithEmptyMessage [ sampleUserMessage ]).1
        = PostResponse.denial
            [ StreamEvent.start,
              StreamEvent.textStart moderationDenialTextId,
              StreamEvent.textDelta moderationDenialTextId
                moderationFallbackMessage,
              StreamEvent.textEnd moderationDenialTextId,
              StreamEvent.finish ]
    ∧ moderationFallbackMessage ≠ emptyText := by
  refine ⟨rfl, rfl, ?_, by decide⟩
  decide

/-- C1 (amended): on a turn whose latest user message has non-empty
concatenated text and whose classification flags it, the route responds
with exactly the five-event stream start, text-start, one text-delta
carrying the denial text (the classifier denial message when present and
non-empty, else the fixed fallback), text-end, finish; the materialized
assistant message is exactly one text part equal to that denial text,
with no tool-call, tool-result or reasoning part; and the response is a
denial, never the generation call, so neither model nor tools run. -/
theorem moderationShortCircuit (classify : String → ModerationResult)
    (messages : List UIMessage) (m : UIMessage)
    (hm : latestUserMessage messages = some m)
    (ht : latestUserText m ≠ emptyText)
    (hf : (classify (latestUserText m)).flagged = true) :
    (POST classify messages).1
      = PostResponse.denial
          [ StreamEvent.start,
            StreamEvent.textStart moderationDenialTextId,
            StreamEvent.textDelta moderationDenialTextId
              (denialText (classify (latestUserText m))),
            StreamEvent.textEnd moderationDenialTextId,
            StreamEvent.finish ]
    ∧ materialize (denialStream (classify (latestUserText m)))
        = [ { kind := "text", id := moderationDenialTextId,
              content := denialText (classify (latestUserText m)) } ] := by
  constructor
  · unfold POST
    rw [hm]
    dsimp only
    rw [if_neg (by simpa using ht), if_pos hf]
    rfl
  · exact materialize_denialStream (classify (latestUserText m))

/-- Witness for C1 at a concrete flagged request with a non-empty denial
message. -/
theorem moderationShortCircuit_witness :
    (POST flagWithMessage [ sampleUserMessage ]).1
      = PostResponse.denial
          [ StreamEvent.start,
            StreamEvent.textStart moderationDenialTextId,
            StreamEvent.textDelta moderationDenialTextId
              (denialText (flagWithMessage (latestUserText sampleUserMessage))),
            StreamEvent.textEnd moderationDenialTextId,
            StreamEvent.finish ]
    ∧ materialize
        (denialStream (flagWithMessage (latestUserText sampleUserMessage)))
        = [ { kind := "text", id := moderationDenialTextId,
              content :=
                denialText (flagWithMessage (latestUserText sampleUserMessage)) } ] :=
  moderationShortCircuit flagWithMessage [ sampleUserMessage ] sampleUserMessage
    (by decide) (by decide) rfl
